import Mathlib

/-!
Shallow embedding of the semsan differential fuzzer (src/main.rs) together with
the pieces of its companion modules that the spec describes.  Bytes are
modelled as natural numbers, byte buffers as lists, and the wiring of main()
as explicit configuration values.
-/

namespace Semsan

/-- Comparator policies selectable with the --comparator flag
(main.rs lines 77-84 match on them). -/
inductive Comparator where
  | Equal
  | LessThan
  | LessThanOrEqual
deriving DecidableEq, Repr

/-- Verdict type of the differential oracle (libafl DiffResult as used by the
DiffFeedback closure in main.rs lines 88-104). -/
inductive DiffResult where
  | Equal
  | Diff
deriving DecidableEq, Repr

/-- Lexicographic comparison of byte slices, the Ord instance Rust uses for
the slice comparisons output1 < output2 and output1 <= output2 in main.rs
lines 81 and 83: elementwise comparison first, then length. -/
def sliceCmp : List Nat → List Nat → Ordering
  | [], [] => Ordering.eq
  | [], _ :: _ => Ordering.lt
  | _ :: _, [] => Ordering.gt
  | a :: as, b :: bs =>
      if a < b then Ordering.lt
      else if b < a then Ordering.gt
      else sliceCmp as bs

/-- Rust slice strict less-than (main.rs line 81). -/
def sliceLt (xs ys : List Nat) : Bool := sliceCmp xs ys == Ordering.lt

/-- Rust slice less-than-or-equal (main.rs line 83). -/
def sliceLe (xs ys : List Nat) : Bool := sliceCmp xs ys != Ordering.gt

/-- Rust slice byte-exact equality (main.rs line 79). -/
def sliceEq (xs ys : List Nat) : Bool := xs == ys

/-- compare_fn from main.rs lines 77-84: true when the two differential
values are considered equivalent under the active policy. -/
def compare_fn : Comparator → List Nat → List Nat → Bool
  | Comparator.Equal, o1, o2 => sliceEq o1 o2
  | Comparator.LessThan, o1, o2 => sliceLt o1 o2
  | Comparator.LessThanOrEqual, o1, o2 => sliceLe o1 o2

/-- The DiffFeedback closure of main.rs lines 88-104: yields the verdict and
the list of raw byte buffers printed to stderr (empty on Equal, both values
on Diff). -/
def objectiveCompare (cmp : Comparator) (v1 v2 : List Nat) :
    DiffResult × List (List Nat) :=
  if compare_fn cmp v1 v2 then (DiffResult.Equal, [])
  else (DiffResult.Diff, [v1, v2])

end Semsan

namespace Semsan

/-- MAX_DIFFERENTIAL_VALUE_SIZE from main.rs line 42. -/
def MAX_DIFFERENTIAL_VALUE_SIZE : Nat := 32

/-- MAX_MAP_SIZE from main.rs line 47. -/
def MAX_MAP_SIZE : Nat := 2621440

/-- A shared-memory region as handed out by the shmem provider; the id
records allocation identity so that aliasing of regions is visible. -/
structure ShMemRegion where
  id : Nat
  size : Nat
deriving DecidableEq, Repr

/-- The differential-value shared memory, allocated once with capacity
MAX_DIFFERENTIAL_VALUE_SIZE (main.rs lines 54-59); its id is exported to the
targets under DIFFERENTIAL_VALUE_SHMEM_ID. -/
def diff_value_shmem : ShMemRegion :=
  { id := 0, size := MAX_DIFFERENTIAL_VALUE_SIZE }

/-- The primary coverage shared memory (main.rs line 106). -/
def primary_coverage_shmem : ShMemRegion := { id := 1, size := MAX_MAP_SIZE }

/-- The secondary coverage shared memory (main.rs line 107). -/
def secondary_coverage_shmem : ShMemRegion := { id := 2, size := MAX_MAP_SIZE }

/-- Modelled from the spec: observers.rs is not under src/.  Per the spec, a
ShMemDifferentialValueObserver is a view of a differential-value shared-memory
region together with an owned snapshot last_value into which the shared
content is copied after each run. -/
structure ShMemDifferentialValueObserver where
  name : String
  region : ShMemRegion
  last_value : List Nat
deriving DecidableEq, Repr

/-- The primary diff-value observer (main.rs lines 62-68): a view of
diff_value_shmem. -/
def primary_diff_value_observer : ShMemDifferentialValueObserver :=
  { name := "diff-observer-1"
    region := diff_value_shmem
    last_value := List.replicate MAX_DIFFERENTIAL_VALUE_SIZE 0 }

/-- The secondary diff-value observer (main.rs lines 69-75): a view of the
same diff_value_shmem region. -/
def secondary_diff_value_observer : ShMemDifferentialValueObserver :=
  { name := "diff-observer-2"
    region := diff_value_shmem
    last_value := List.replicate MAX_DIFFERENTIAL_VALUE_SIZE 0 }

/-- Modelled from the spec: after a run, the observer copies the shared-memory
content into its owned last_value snapshot (observers.rs is not under src/). -/
def post_exec (shmemContent : List Nat)
    (obs : ShMemDifferentialValueObserver) : ShMemDifferentialValueObserver :=
  { obs with last_value := shmemContent }

/-- Runtime state of the two diff-value observers and the single shared
differential-value region they both view. -/
structure DualRunState where
  sharedRegion : List Nat
  primaryObs : ShMemDifferentialValueObserver
  secondaryObs : ShMemDifferentialValueObserver
deriving Repr

/-- The state as main() sets it up before the first execution. -/
def initial_dual_state : DualRunState :=
  { sharedRegion := List.replicate MAX_DIFFERENTIAL_VALUE_SIZE 0
    primaryObs := primary_diff_value_observer
    secondaryObs := secondary_diff_value_observer }

/-- The primary target runs: it writes its differential value into the shared
region, and the primary observer snapshots it. -/
def runPrimary (write : List Nat) (st : DualRunState) : DualRunState :=
  { st with sharedRegion := write, primaryObs := post_exec write st.primaryObs }

/-- The secondary target runs next: it overwrites the same shared region, and
the secondary observer snapshots it. -/
def runSecondary (write : List Nat) (st : DualRunState) : DualRunState :=
  { st with
      sharedRegion := write
      secondaryObs := post_exec write st.secondaryObs }

/-- One dual execution: primary then secondary, in that fixed order
(the DiffExecutor of main.rs lines 206-211). -/
def dualRun (p s : List Nat) (st : DualRunState) : DualRunState :=
  runSecondary s (runPrimary p st)

/-- Modelled from the spec: the Options struct lives in options.rs, which is
not under src/.  Its fields are exactly those read by main.rs together with
the CLI flags the spec lists; in particular there is no RNG-seed flag. -/
structure Options where
  primary : String
  secondary : String
  seeds : String
  solutions : String
  timeout : Nat
  comparator : Comparator
  foreign_corpus : Option String
  foreign_sync_interval : Nat
  no_secondary_coverage : Bool
  debug : Bool
  ignore_solutions : Bool
  solution_exit_code : Nat
deriving Repr

/-- A concrete options value used to instantiate theorems. -/
def sampleOptions : Options :=
  { primary := "./primary"
    secondary := "./secondary"
    seeds := "seeds"
    solutions := "solutions"
    timeout := 1000
    comparator := Comparator.Equal
    foreign_corpus := none
    foreign_sync_interval := 10
    no_secondary_coverage := true
    debug := false
    ignore_solutions := false
    solution_exit_code := 71 }

/-- Static configuration of a forkserver executor as built in main.rs. -/
structure ExecutorCfg where
  program : String
  debug_child : Bool
  coverage_map_size_req : Nat
  timeout_ms : Nat
  env : List (String × String)
deriving Repr

/-- The primary executor builder chain of main.rs lines 127-147.  The second
argument is the environment of the fuzzer process itself, read with
std::env::var. -/
def primary_executor (opts : Options) (envv : String → Option String) :
    ExecutorCfg :=
  { program := opts.primary
    debug_child := opts.debug
    coverage_map_size_req := MAX_MAP_SIZE
    timeout_ms := opts.timeout
    env := [("__AFL_SHM_ID", toString primary_coverage_shmem.id),
            ("__AFL_SHM_ID_SIZE", toString primary_coverage_shmem.size),
            ("LD_PRELOAD", (envv "SEMSAN_PRIMARY_LD_PRELOAD").getD "")] }

/-- The secondary executor builder chain of main.rs lines 149-169. -/
def secondary_executor (opts : Options) (envv : String → Option String) :
    ExecutorCfg :=
  { program := opts.secondary
    debug_child := opts.debug
    coverage_map_size_req := MAX_MAP_SIZE
    timeout_ms := opts.timeout
    env := [("__AFL_SHM_ID", toString secondary_coverage_shmem.id),
            ("__AFL_SHM_ID_SIZE", toString secondary_coverage_shmem.size),
            ("LD_PRELOAD", (envv "SEMSAN_SECONDARY_LD_PRELOAD").getD "")] }

/-- DiffExecutor::new of main.rs lines 207-211: it always couples the primary
and the secondary executor, independently of any flag. -/
def diff_executor (opts : Options) (envv : String → Option String) :
    ExecutorCfg × ExecutorCfg :=
  (primary_executor opts envv, secondary_executor opts envv)

/-- Running one input through the DiffExecutor: the primary target writes its
differential value, then the secondary target writes its own, each observer
snapshotting in turn (main.rs lines 206-211 together with the spec's
primary-then-secondary ordering). -/
def diff_executor_run (pT sT : List Nat → List Nat) (input : List Nat)
    (st : DualRunState) : DualRunState :=
  dualRun (pT input) (sT input) st

/-- The oracle verdict the DiffFeedback produces for one input: the comparator
applied to the two observers' snapshots after the dual run. -/
def run_verdict (opts : Options) (pT sT : List Nat → List Nat)
    (input : List Nat) (st : DualRunState) : DiffResult :=
  let st2 := diff_executor_run pT sT input st
  (objectiveCompare opts.comparator st2.primaryObs.last_value
      st2.secondaryObs.last_value).1

/-- Vec::truncate / OwnedMutSlice::truncate semantics on a buffer: shorten to
n elements, a no-op when n is not smaller than the length (main.rs lines
172-179 truncate the two coverage-map slices). -/
def truncateBuf (buf : List Nat) (n : Nat) : List Nat := buf.take n

/-- main.rs lines 174-178: the secondary map size is forced to zero when
--no-secondary-coverage is set, else it is the size the secondary target
reported at handshake. -/
def secondary_map_size (opts : Options) (reported : Nat) : Nat :=
  if opts.no_secondary_coverage then 0 else reported

/-- The coverage-map slices after the post-handshake truncation of main.rs
lines 171-179, starting from the two MAX_MAP_SIZE-byte allocations. -/
def truncated_coverage_maps (opts : Options) (pBuf sBuf : List Nat)
    (repP repS : Nat) : List (List Nat) :=
  [truncateBuf pBuf repP, truncateBuf sBuf (secondary_map_size opts repS)]

/-- MultiMapObserver::differential concatenates the two truncated slices into
the one combined coverage map used for novelty decisions (main.rs lines
182-186). -/
def combined_coverage_map (opts : Options) (pBuf sBuf : List Nat)
    (repP repS : Nat) : List Nat :=
  (truncated_coverage_maps opts pBuf sBuf repP repS).flatten

/-- Whether a libafl corpus store persists its entries to disk: the
InMemoryCorpus does not, the OnDiskCorpus does. -/
inductive StoreKind where
  | inMemory
  | onDisk
deriving DecidableEq, Repr

def StoreKind.persistent : StoreKind → Bool
  | StoreKind.inMemory => false
  | StoreKind.onDisk => true

/-- A corpus store: its kind and the inputs it holds. -/
structure Store where
  kind : StoreKind
  entries : List (List Nat)
deriving DecidableEq, Repr

/-- State as built by StdState::new in main.rs lines 191-198: an
InMemoryCorpus for interesting inputs and an OnDiskCorpus rooted at the
solutions directory for solutions. -/
structure FuzzState where
  corpus : Store
  solutions : Store
deriving DecidableEq, Repr

def initial_state : FuzzState :=
  { corpus := { kind := StoreKind.inMemory, entries := [] }
    solutions := { kind := StoreKind.onDisk, entries := [] } }

/-- Modelled from the spec: the routing of one execution result by the fuzzer
(StdFuzzer in the libafl dependency, not under src/): an input whose oracle
verdict is Diff is added to the solutions store; otherwise it is added to the
corpus store exactly when the coverage feedback marked it novel.  Returns the
new state and the buffers printed by the objective closure. -/
def process_execution (cmp : Comparator) (novel : Bool)
    (input v1 v2 : List Nat) (st : FuzzState) :
    FuzzState × List (List Nat) :=
  let r := objectiveCompare cmp v1 v2
  match r.1 with
  | DiffResult.Diff =>
      ({ st with
          solutions :=
            { st.solutions with entries := input :: st.solutions.entries } },
       r.2)
  | DiffResult.Equal =>
      (if novel then
        { st with
            corpus := { st.corpus with entries := input :: st.corpus.entries } }
       else st,
       r.2)

/-- One candidate file found during a corpus sync: its content, whether the
coverage feedback found it novel, and the differential values the two targets
produced on it. -/
structure Candidate where
  input : List Nat
  novel : Bool
  primaryValue : List Nat
  secondaryValue : List Nat

/-- Modelled from the spec: CorpusSyncer::sync over the seed directories
(corpus_syncer.rs is not under src/): every candidate is executed through the
dual executor and admitted via the novelty-gated corpus path. -/
def sync_seeds (cmp : Comparator) (cands : List Candidate) (st : FuzzState) :
    FuzzState :=
  cands.foldl
    (fun s c =>
      (process_execution cmp c.novel c.input c.primaryValue c.secondaryValue
          s).1)
    st

/-- States of the loop driver state machine described by the spec. -/
inductive Phase where
  | Seeding
  | Running (st : FuzzState)
  | Fatal (msg : String)
deriving DecidableEq, Repr

/-- Modelled from the spec: the Seeding state syncs all initial seed
directories and requires the corpus be non-empty afterward, otherwise the
process aborts with a fatal startup error (the emptiness check lives in code
not under src/). -/
def seeding_phase (cmp : Comparator) (cands : List Candidate)
    (st : FuzzState) : Phase :=
  let st2 := sync_seeds cmp cands st
  if st2.corpus.entries = [] then Phase.Fatal "empty corpus after seeding"
  else Phase.Running st2

/-- The solution-triggered exit test of main.rs line 248:
!opts.ignore_solutions && state.solutions().count() != 0. -/
def exit_condition (opts : Options) (st : FuzzState) : Bool :=
  !opts.ignore_solutions && st.solutions.entries.length != 0

/-- The body of one loop iteration before the exit test (main.rs lines
231-246): fuzz_one, then, when a foreign corpus directory is configured, a
foreign-corpus sync.  fuzzOne and foreignSync abstract the corpus-mutating
effects of fuzz_one and CorpusSyncer::sync. -/
def loop_iter (opts : Options) (fuzzOne foreignSync : FuzzState → FuzzState)
    (st : FuzzState) : FuzzState :=
  let st1 := fuzzOne st
  if opts.foreign_corpus.isSome then foreignSync st1 else st1

/-- The fuzzing loop of main.rs lines 231-251, run for at most fuel
iterations.  Returns the exit code when the process terminated within fuel
iterations (none when it is still running) together with the number of
fuzz_one calls made. -/
def fuzz_loop (opts : Options) (fuzzOne foreignSync : FuzzState → FuzzState) :
    Nat → FuzzState → Option Nat × Nat
  | 0, _ => (none, 0)
  | fuel + 1, st =>
      let st2 := loop_iter opts fuzzOne foreignSync st
      if exit_condition opts st2 then (some opts.solution_exit_code, 1)
      else
        let r := fuzz_loop opts fuzzOne foreignSync fuel st2
        (r.1, r.2 + 1)

/-- main.rs line 192: the RNG is StdRand::with_seed(current_nanos()).  The
seed is the wall-clock nanosecond reading at startup and depends on nothing
else; no option influences it. -/
def rng_seed (_opts : Options) (current_nanos : Nat) : Nat := current_nanos

/-- A concrete corpus-mutating effect used to instantiate loop theorems: a
fuzz_one call that discovers one solution. -/
def addSolution (s : FuzzState) : FuzzState :=
  { s with
      solutions := { s.solutions with entries := [0] :: s.solutions.entries } }

/-- A concrete state whose seeding already produced a solution. -/
def seeded_with_solution : FuzzState :=
  { initial_state with
      solutions := { kind := StoreKind.onDisk, entries := [[7]] } }

end Semsan

namespace Semsan

/-- Every byte slice compares eq against itself under the lexicographic slice
ordering. -/
theorem sliceCmp_self (v : List Nat) : sliceCmp v v = Ordering.eq := by
  induction v with
  | nil => rfl
  | cons a as ih => simp [sliceCmp, ih]

/-- C1: for the Equal policy the oracle verdict on identical values is Equal
(reflexivity); for the LessThan policy it is Diff (irreflexivity); and in
general the verdict is Equal exactly when the active policy's byte comparison
holds. -/
theorem c1_comparator_reflexivity_irreflexivity :
    (∀ v, (objectiveCompare Comparator.Equal v v).1 = DiffResult.Equal) ∧
    (∀ v, (objectiveCompare Comparator.LessThan v v).1 = DiffResult.Diff) ∧
    (∀ cmp v1 v2,
      (objectiveCompare cmp v1 v2).1 = DiffResult.Equal ↔
        compare_fn cmp v1 v2 = true) := by
  refine ⟨?_, ?_, ?_⟩
  · intro v
    simp [objectiveCompare, compare_fn, sliceEq]
  · intro v
    have hlt : (Ordering.eq == Ordering.lt) = false := rfl
    simp [objectiveCompare, compare_fn, sliceLt, sliceCmp_self, hlt]
  · intro cmp v1 v2
    cases h : compare_fn cmp v1 v2
    · simp [objectiveCompare, h]
    · simp [objectiveCompare, h]

/-- C7 counterexample: the two differential-value observers are views of one
and the same shared-memory region (main.rs lines 54-75 pass the same
diff_value_shmem pointer to both), so the targets do not each have their own
differential-value buffer. -/
theorem c7_counterexample :
    primary_diff_value_observer.region = secondary_diff_value_observer.region ∧
    primary_diff_value_observer.region = diff_value_shmem ∧
    secondary_diff_value_observer.region = diff_value_shmem :=
  ⟨rfl, rfl, rfl⟩

/-- C7 amended: both targets share one differential-value shared-memory
buffer of capacity 32 bytes; each target has its own observer whose owned
snapshot captures the shared value after that target's run, so the
secondary's (or the next run's) write to the shared region cannot overwrite a
value before it is read for comparison. -/
theorem c7_shared_buffer_per_target_snapshot (p s : List Nat)
    (st : DualRunState) :
    diff_value_shmem.size = 32 ∧
    diff_value_shmem.size ≤ MAX_DIFFERENTIAL_VALUE_SIZE ∧
    primary_diff_value_observer.region = secondary_diff_value_observer.region ∧
    (dualRun p s st).sharedRegion = s ∧
    (dualRun p s st).primaryObs.last_value = p ∧
    (dualRun p s st).secondaryObs.last_value = s :=
  ⟨rfl, Nat.le_refl _, rfl, rfl, rfl, rfl⟩

/-- C8: both executors are launched with an LD_PRELOAD variable that is
always present in their environment: it carries the value of
SEMSAN_PRIMARY_LD_PRELOAD (resp. SEMSAN_SECONDARY_LD_PRELOAD) when that
variable is set in the fuzzer's environment, and the empty string otherwise. -/
theorem c8_ld_preload_always_set (opts : Options)
    (envv : String → Option String) :
    ((primary_executor opts envv).env.lookup "LD_PRELOAD"
        = some ((envv "SEMSAN_PRIMARY_LD_PRELOAD").getD "")) ∧
    ((secondary_executor opts envv).env.lookup "LD_PRELOAD"
        = some ((envv "SEMSAN_SECONDARY_LD_PRELOAD").getD "")) ∧
    (envv "SEMSAN_PRIMARY_LD_PRELOAD" = none →
        (primary_executor opts envv).env.lookup "LD_PRELOAD" = some "") ∧
    (∀ v, envv "SEMSAN_SECONDARY_LD_PRELOAD" = some v →
        (secondary_executor opts envv).env.lookup "LD_PRELOAD" = some v) := by
  refine ⟨?_, ?_, ?_, ?_⟩
  · simp [primary_executor, List.lookup]
  · simp [secondary_executor, List.lookup]
  · intro h
    simp [primary_executor, List.lookup, h]
  · intro v h
    simp [secondary_executor, List.lookup, h]

/-- C8 witness: with an environment in which neither preload variable is set,
both executors still carry LD_PRELOAD, set to the empty string. -/
theorem c8_witness :
    (primary_executor sampleOptions (fun _ => none)).env.lookup "LD_PRELOAD"
      = some "" :=
  (c8_ld_preload_always_set sampleOptions (fun _ => none)).2.2.1 rfl

/-- C9: the RNG seed is the wall-clock nanosecond reading alone: it is the
same function of the clock for any two option vectors (no flag can fix it),
and two invocations at different clock readings obtain different seeds, so
identical command lines do not guarantee an identical pseudo-random stream. -/
theorem c9_seed_is_wall_clock_only (opts opts2 : Options) :
    (∀ now, rng_seed opts now = rng_seed opts2 now) ∧
    (∃ t1 t2, t1 ≠ t2 ∧ rng_seed opts t1 ≠ rng_seed opts t2) :=
  ⟨fun _ => rfl, ⟨0, 1, by omega, by simp [rng_seed]⟩⟩

end Semsan

namespace Semsan

/-- C2: if the corpus is empty after the initial seed-directory sync the
driver goes fatal with a descriptive message and never reaches Running, and
every run that reaches the Running state has a non-empty corpus. -/
theorem c2_empty_corpus_after_seeding_is_fatal (cmp : Comparator)
    (cands : List Candidate) (st : FuzzState) :
    ((sync_seeds cmp cands st).corpus.entries = [] →
      seeding_phase cmp cands st = Phase.Fatal "empty corpus after seeding") ∧
    (∀ st2, seeding_phase cmp cands st = Phase.Running st2 →
      st2.corpus.entries ≠ []) := by
  constructor
  · intro h
    simp [seeding_phase, h]
  · intro st2 h
    by_cases he : (sync_seeds cmp cands st).corpus.entries = []
    · simp [seeding_phase, he] at h
    · simp [seeding_phase, he] at h
      rw [← h]
      exact he

/-- C2 witness: with no seed candidates at all, seeding from the initial
state is fatal. -/
theorem c2_witness :
    seeding_phase Comparator.Equal [] initial_state
      = Phase.Fatal "empty corpus after seeding" :=
  (c2_empty_corpus_after_seeding_is_fatal Comparator.Equal [] initial_state).1
    rfl

/-- C4: with --no-secondary-coverage set the secondary segment of the
combined coverage map is truncated to length zero, so the combined map is
exactly the primary segment and is unchanged under any secondary coverage
data, while the secondary executor still produces its differential value on
every input and the oracle verdict does not depend on the flag. -/
theorem c4_no_secondary_coverage (opts opts2 : Options)
    (h : opts.no_secondary_coverage = true)
    (hc : opts2.comparator = opts.comparator)
    (pBuf sBuf sBuf2 : List Nat) (repP repS repS2 : Nat)
    (pT sT : List Nat → List Nat) (input : List Nat) (st : DualRunState) :
    combined_coverage_map opts pBuf sBuf repP repS = truncateBuf pBuf repP ∧
    combined_coverage_map opts pBuf sBuf repP repS
      = combined_coverage_map opts pBuf sBuf2 repP repS2 ∧
    (diff_executor_run pT sT input st).secondaryObs.last_value = sT input ∧
    run_verdict opts pT sT input st = run_verdict opts2 pT sT input st := by
  refine ⟨?_, ?_, rfl, ?_⟩
  · simp [combined_coverage_map, truncated_coverage_maps, secondary_map_size,
      h, truncateBuf]
  · simp [combined_coverage_map, truncated_coverage_maps, secondary_map_size,
      h, truncateBuf]
  · simp [run_verdict, hc]

/-- C4 witness at concrete buffers, targets and an input. -/
theorem c4_witness :
    combined_coverage_map sampleOptions [1, 2, 3] [9, 9] 2 2
      = truncateBuf [1, 2, 3] 2 ∧
    combined_coverage_map sampleOptions [1, 2, 3] [9, 9] 2 2
      = combined_coverage_map sampleOptions [1, 2, 3] [7] 2 1 ∧
    (diff_executor_run (fun _ => [1]) (fun _ => [2]) [5]
        initial_dual_state).secondaryObs.last_value = (fun _ => [2]) [5] ∧
    run_verdict sampleOptions (fun _ => [1]) (fun _ => [2]) [5]
        initial_dual_state
      = run_verdict sampleOptions (fun _ => [1]) (fun _ => [2]) [5]
        initial_dual_state :=
  c4_no_secondary_coverage sampleOptions sampleOptions rfl rfl [1, 2, 3]
    [9, 9] [7] 2 2 1 (fun _ => [1]) (fun _ => [2]) [5] initial_dual_state

/-- C5: both coverage shared-memory regions are allocated at the configured
maximum of 2621440 bytes, and after the executor handshake each slice is
truncated to exactly the size its target reported, the secondary slice
becoming zero-length when excluded. -/
theorem c5_alloc_max_then_trim_to_reported (opts : Options)
    (pBuf sBuf : List Nat) (repP repS : Nat)
    (hrp : repP ≤ MAX_MAP_SIZE) (hrs : repS ≤ MAX_MAP_SIZE)
    (hp : pBuf.length = MAX_MAP_SIZE) (hs : sBuf.length = MAX_MAP_SIZE) :
    primary_coverage_shmem.size = 2621440 ∧
    secondary_coverage_shmem.size = 2621440 ∧
    (truncated_coverage_maps opts pBuf sBuf repP repS).map List.length
      = [repP, secondary_map_size opts repS] ∧
    (opts.no_secondary_coverage = true → secondary_map_size opts repS = 0) := by
  have h2 : secondary_map_size opts repS ≤ MAX_MAP_SIZE := by
    unfold secondary_map_size
    split
    · exact Nat.zero_le _
    · exact hrs
  refine ⟨rfl, rfl, ?_, ?_⟩
  · simp [truncated_coverage_maps, truncateBuf, hp, hs,
      Nat.min_eq_left hrp, Nat.min_eq_left h2]
  · intro hf
    simp [secondary_map_size, hf]

/-- C5 witness: full-size buffers with reported sizes 5 and 3 trim to the
reported sizes (0 for the excluded secondary of the sample options). -/
theorem c5_witness :
    primary_coverage_shmem.size = 2621440 ∧
    secondary_coverage_shmem.size = 2621440 ∧
    (truncated_coverage_maps sampleOptions (List.replicate MAX_MAP_SIZE 0)
        (List.replicate MAX_MAP_SIZE 0) 5 3).map List.length
      = [5, secondary_map_size sampleOptions 3] ∧
    (sampleOptions.no_secondary_coverage = true →
      secondary_map_size sampleOptions 3 = 0) :=
  c5_alloc_max_then_trim_to_reported sampleOptions
    (List.replicate MAX_MAP_SIZE 0) (List.replicate MAX_MAP_SIZE 0) 5 3
    (by norm_num [MAX_MAP_SIZE]) (by norm_num [MAX_MAP_SIZE]) (by simp)
    (by simp)

/-- C6: a Diff verdict routes the input to the solutions store and reports
both raw differential-value buffers while leaving the in-memory corpus
untouched; the solutions store is the persistent on-disk one and the corpus
the non-persistent in-memory one; and an Equal verdict never touches the
solutions store. -/
theorem c6_diff_goes_to_persistent_solutions (cmp : Comparator)
    (novel : Bool) (input v1 v2 : List Nat) (st : FuzzState)
    (h : compare_fn cmp v1 v2 = false) :
    input ∈ (process_execution cmp novel input v1 v2 st).1.solutions.entries ∧
    (process_execution cmp novel input v1 v2 st).2 = [v1, v2] ∧
    (process_execution cmp novel input v1 v2 st).1.corpus = st.corpus ∧
    initial_state.solutions.kind.persistent = true ∧
    initial_state.corpus.kind.persistent = false ∧
    (∀ w1 w2 inp n s, compare_fn cmp w1 w2 = true →
      (process_execution cmp n inp w1 w2 s).1.solutions = s.solutions) := by
  refine ⟨?_, ?_, ?_, rfl, rfl, ?_⟩
  · simp [process_execution, objectiveCompare, h]
  · simp [process_execution, objectiveCompare, h]
  · simp [process_execution, objectiveCompare, h]
  · intro w1 w2 inp n s hw
    cases n <;> simp [process_execution, objectiveCompare, hw]

/-- C6 witness: the Equal comparator on the differing buffers 0 and 1 stores
the input among the solutions. -/
theorem c6_witness :
    [5] ∈ (process_execution Comparator.Equal false [5] [0] [1]
        initial_state).1.solutions.entries :=
  (c6_diff_goes_to_persistent_solutions Comparator.Equal false [5] [0] [1]
    initial_state (by decide)).1

end Semsan

namespace Semsan

/-- When ignore_solutions is set the loop never exits, whatever the effects
of fuzz_one and the foreign sync and however many iterations elapse. -/
theorem fuzz_loop_none_of_ignore (opts : Options)
    (fuzzOne foreignSync : FuzzState → FuzzState)
    (hig : opts.ignore_solutions = true) :
    ∀ fuel st, (fuzz_loop opts fuzzOne foreignSync fuel st).1 = none := by
  intro fuel
  induction fuel with
  | zero => intro st; rfl
  | succ n ih =>
    intro st
    simp [fuzz_loop, exit_condition, hig]
    exact ih _

/-- Whenever the loop exits, it returns the configured solution exit code,
the ignore flag is unset, and at least one fuzz_one call was made. -/
theorem fuzz_loop_some_inv (opts : Options)
    (fuzzOne foreignSync : FuzzState → FuzzState) :
    ∀ fuel st c k,
      fuzz_loop opts fuzzOne foreignSync fuel st = (some c, k) →
      c = opts.solution_exit_code ∧ opts.ignore_solutions = false ∧ 1 ≤ k := by
  intro fuel
  induction fuel with
  | zero =>
    intro st c k h
    simp [fuzz_loop] at h
  | succ n ih =>
    intro st c k h
    simp only [fuzz_loop] at h
    split at h
    case isTrue hex =>
      simp only [Prod.mk.injEq, Option.some.injEq] at h
      obtain ⟨h1, h2⟩ := h
      refine ⟨h1.symm, ?_, by omega⟩
      simp [exit_condition, Bool.and_eq_true, Bool.not_eq_true'] at hex
      exact hex.1
    case isFalse hex =>
      simp only [Prod.mk.injEq] at h
      obtain ⟨h1, h2⟩ := h
      have hrec := ih (loop_iter opts fuzzOne foreignSync st) c
        (fuzz_loop opts fuzzOne foreignSync n
          (loop_iter opts fuzzOne foreignSync st)).2 (by rw [← h1])
      exact ⟨hrec.1, hrec.2.1, by omega⟩

/-- C3: with ignore_solutions set the loop never terminates; any termination
returns exactly the configured solution exit code and can only happen with
ignore_solutions unset (so there is no other, clean exit path); and with
ignore_solutions unset the loop does terminate with that code as soon as an
iteration ends with a non-empty solutions store. -/
theorem c3_loop_runs_until_solution (opts : Options)
    (fuzzOne foreignSync : FuzzState → FuzzState) (st : FuzzState)
    (fuel : Nat) :
    (opts.ignore_solutions = true →
      (fuzz_loop opts fuzzOne foreignSync fuel st).1 = none) ∧
    (∀ c k, fuzz_loop opts fuzzOne foreignSync fuel st = (some c, k) →
      c = opts.solution_exit_code ∧ opts.ignore_solutions = false) ∧
    (opts.ignore_solutions = false →
      (loop_iter opts fuzzOne foreignSync st).solutions.entries ≠ [] →
      1 ≤ fuel →
      (fuzz_loop opts fuzzOne foreignSync fuel st).1
        = some opts.solution_exit_code) := by
  refine ⟨?_, ?_, ?_⟩
  · intro hig
    exact fuzz_loop_none_of_ignore opts fuzzOne foreignSync hig fuel st
  · intro c k h
    have hv := fuzz_loop_some_inv opts fuzzOne foreignSync fuel st c k h
    exact ⟨hv.1, hv.2.1⟩
  · intro hig hsol hfuel
    obtain ⟨m, rfl⟩ : ∃ m, fuel = m + 1 := ⟨fuel - 1, by omega⟩
    have hex : exit_condition opts (loop_iter opts fuzzOne foreignSync st)
        = true := by
      simp [exit_condition, hig, bne_iff_ne, List.length_eq_zero]
      exact hsol
    simp [fuzz_loop, hex]

/-- C3 witness: a fuzz_one that finds a solution makes the loop exit with
the sample options' solution exit code 71. -/
theorem c3_witness :
    (fuzz_loop sampleOptions addSolution id 1 initial_state).1
      = some sampleOptions.solution_exit_code :=
  (c3_loop_runs_until_solution sampleOptions addSolution id initial_state
      1).2.2 rfl (by simp [loop_iter, addSolution, sampleOptions]) (by omega)

/-- C10: the exit test runs only after fuzz_one and the optional foreign
sync, so any exit happens after at least one fuzz_one call; in particular a
solution already present when the loop is entered (for example one found
during initial seeding) does not abort the process before fuzz_one: when
fuzz_one and the sync never erase solutions and ignore_solutions is unset,
the loop exits after exactly one fuzz_one call. -/
theorem c10_exit_checked_after_fuzz_one (opts : Options)
    (fuzzOne foreignSync : FuzzState → FuzzState) (st : FuzzState)
    (fuel : Nat) :
    (∀ c k, fuzz_loop opts fuzzOne foreignSync fuel st = (some c, k) →
      1 ≤ k) ∧
    ((∀ s, s.solutions.entries ≠ [] → (fuzzOne s).solutions.entries ≠ []) →
      (∀ s, s.solutions.entries ≠ [] →
        (foreignSync s).solutions.entries ≠ []) →
      opts.ignore_solutions = false →
      st.solutions.entries ≠ [] → 1 ≤ fuel →
      fuzz_loop opts fuzzOne foreignSync fuel st
        = (some opts.solution_exit_code, 1)) := by
  constructor
  · intro c k h
    exact (fuzz_loop_some_inv opts fuzzOne foreignSync fuel st c k h).2.2
  · intro hm1 hm2 hig hsol hfuel
    obtain ⟨m, rfl⟩ : ∃ m, fuel = m + 1 := ⟨fuel - 1, by omega⟩
    have hsol2 : (loop_iter opts fuzzOne foreignSync st).solutions.entries
        ≠ [] := by
      by_cases hf : opts.foreign_corpus.isSome
      · simp [loop_iter, hf]
        exact hm2 _ (hm1 _ hsol)
      · simp [loop_iter, hf]
        exact hm1 _ hsol
    have hex : exit_condition opts (loop_iter opts fuzzOne foreignSync st)
        = true := by
      simp [exit_condition, hig, bne_iff_ne, List.length_eq_zero]
      exact hsol2
    simp [fuzz_loop, hex]

/-- C10 witness: entering the loop with a solution already in the store, the
exit happens only after exactly one fuzz_one call. -/
theorem c10_witness :
    fuzz_loop sampleOptions addSolution id 1 seeded_with_solution
      = (some sampleOptions.solution_exit_code, 1) :=
  (c10_exit_checked_after_fuzz_one sampleOptions addSolution id
      seeded_with_solution 1).2
    (fun s h => by simp [addSolution])
    (fun s h => h) rfl (by simp [seeded_with_solution]) (by omega)

end Semsan
